import Mathlib

/-!
Shallow embedding of the console editor core (Console-Based-Editor.py):
the editor state dictionary, `parse_command`, `clamp_cursor`, the word
scanners, every mutation handler, and the `handle_command` dispatcher.

Modelling conventions:
* A Python string (a sequence of code points) is a `List Char`; slicing
  `line[:k]` / `line[k:]` is `List.take` / `List.drop`.
* Cursor indices are `Nat`: the source initialises them to 0 and every
  assignment keeps them non-negative (`max(0, _)` guards, decrements only
  under `> 0` tests), so negative values never arise.
* Python list `append`/`pop()`/`[-1]` work at the end of the list; we keep
  the most recent element at the HEAD of a Lean list, so append is cons,
  `[-1]` is `head` and `pop()` is `tail`.
* An uncaught Python exception (IndexError on an out-of-range cursor line,
  TypeError when `i`/`a` receive no argument) is modelled as `none`:
  fallible operations return `Option EditorState`.
* `handle_r` re-enters `handle_command`; the re-entry is modelled with a
  fuel parameter.  Recorded history entries are never `u` or `r`, so one
  level of re-entry suffices; exhausted fuel (`none`) corresponds to
  Python's RecursionError on the unreachable self-replaying histories.
* The two ANSI constants `cursor_highlight`/`cursor_reset` are render-only
  (never read or written by the core) and are omitted from the state.
* `str.isspace` is modelled by `Char.isWhitespace`; they agree on the
  ASCII whitespace the editor manipulates.
-/

namespace ConsoleEditor

/-- The field set copied by `save_state` and written back by
`restore_state`: document, cursor line, cursor column, the two toggle
flags and the clipboard. -/
structure Snapshot where
  content : List (List Char)
  current_line : Nat
  current_row : Nat
  show_line_cursor : Bool
  show_row_cursor : Bool
  clipboard : Option (List Char)
deriving DecidableEq, Repr

/-- The editor state dictionary built by `initialize_state`. -/
structure EditorState where
  content : List (List Char)
  current_line : Nat
  current_row : Nat
  show_line_cursor : Bool
  show_row_cursor : Bool
  clipboard : Option (List Char)
  undo_stack : List Snapshot
  command_history : List (List Char × Option (List Char))
deriving DecidableEq, Repr

/-- Convenience: the characters of a string literal. -/
def chars (s : String) : List Char := s.toList

/-- `initialize_state`: empty document, cursor at (0,0), cursors hidden,
no clipboard, empty stacks. -/
def initialize_state : EditorState :=
  { content := []
    current_line := 0
    current_row := 0
    show_line_cursor := false
    show_row_cursor := false
    clipboard := none
    undo_stack := []
    command_history := [] }

/-- The snapshot `save_state` takes of a state. -/
def snapshot_of (s : EditorState) : Snapshot :=
  { content := s.content
    current_line := s.current_line
    current_row := s.current_row
    show_line_cursor := s.show_line_cursor
    show_row_cursor := s.show_row_cursor
    clipboard := s.clipboard }

/-- `save_state`: push a snapshot of the current state onto the undo
stack. -/
def save_state (s : EditorState) : EditorState :=
  { s with undo_stack := snapshot_of s :: s.undo_stack }

/-- `restore_state`: write a saved snapshot's fields back into the
state (the stacks themselves are not part of the snapshot). -/
def restore_state (s : EditorState) (saved : Snapshot) : EditorState :=
  { s with
    content := saved.content
    current_line := saved.current_line
    current_row := saved.current_row
    show_line_cursor := saved.show_line_cursor
    show_row_cursor := saved.show_row_cursor
    clipboard := saved.clipboard }

/-- First assignment of `clamp_cursor`: clamp the line index into
`[0, line_count-1]`, or 0 on an empty document. -/
def clamp_line (content : List (List Char)) (cl : Nat) : Nat :=
  if 0 < content.length then max 0 (min cl (content.length - 1)) else 0

/-- The guarded `line_length` expression of `clamp_cursor`: the current
line's length, or 0 when the document is empty or the line index is out
of range. -/
def line_length_at (content : List (List Char)) (cl : Nat) : Nat :=
  if content ≠ [] ∧ cl < content.length then ((content.get? cl).getD []).length else 0

/-- Second assignment of `clamp_cursor`: clamp the column into
`[0, line_length-1]`, or 0 on an empty line. -/
def clamp_row (content : List (List Char)) (cl : Nat) (cr : Nat) : Nat :=
  max 0 (min cr (if 0 < line_length_at content cl then line_length_at content cl - 1 else 0))

/-- `clamp_cursor`: re-clamp the line index, then the column index
against the line at the (re-clamped) line index. -/
def clamp_cursor (s : EditorState) : EditorState :=
  let cl := clamp_line s.content s.current_line
  { s with current_line := cl, current_row := clamp_row s.content cl s.current_row }

/-- `parse_command`: first-match-wins over the source's pattern list. -/
def parse_command (cmd : List Char) : Option (List Char) × Option (List Char) :=
  if cmd ∈ [['?'], ['.'], [';'], ['h'], ['j'], ['k'], ['l'], ['^'], ['$'],
            ['x'], ['s'], ['q'], ['w'], ['b']] then (some cmd, none)
  else if cmd ∈ [['d','w'], ['y','y'], ['d','d'], ['p'], ['P'], ['o'], ['O']] then
    (some cmd, none)
  else if cmd.head? = some 'i' then
    (if 1 < cmd.length then (some ['i'], some (cmd.drop 1)) else (none, none))
  else if cmd.head? = some 'a' then
    (if 1 < cmd.length then (some ['a'], some (cmd.drop 1)) else (none, none))
  else if cmd ∈ [['u'], ['r']] then (some cmd, none)
  else (none, none)

/-- Forward loop `while pos < len(line) and not line[pos].isspace()`.
The countdown `k` is `line.length - pos` at the first call, so the
recursion mirrors the while loop exactly. -/
def scan_fwd_nonspace (line : List Char) : Nat → Nat → Nat
  | pos, 0 => pos
  | pos, k + 1 =>
    match line.get? pos with
    | some c => if c.isWhitespace then pos else scan_fwd_nonspace line (pos + 1) k
    | none => pos

/-- Forward loop `while pos < len(line) and line[pos].isspace()`. -/
def scan_fwd_space (line : List Char) : Nat → Nat → Nat
  | pos, 0 => pos
  | pos, k + 1 =>
    match line.get? pos with
    | some c => if c.isWhitespace then scan_fwd_space line (pos + 1) k else pos
    | none => pos

/-- Backward loop `while pos > 0 and line[pos-1].isspace()`.  Reading
`line[pos-1]` raises IndexError when `pos-1` is past the end, hence the
`Option` result. -/
def scan_back_space (line : List Char) : Nat → Nat → Option Nat
  | pos, 0 => some pos
  | pos, k + 1 =>
    if 0 < pos then
      match line.get? (pos - 1) with
      | some c => if c.isWhitespace then scan_back_space line (pos - 1) k else some pos
      | none => none
    else some pos

/-- Backward loop `while pos > 0 and not line[pos-1].isspace()`. -/
def scan_back_nonspace (line : List Char) : Nat → Nat → Option Nat
  | pos, 0 => some pos
  | pos, k + 1 =>
    if 0 < pos then
      match line.get? (pos - 1) with
      | some c => if c.isWhitespace then some pos else scan_back_nonspace line (pos - 1) k
      | none => none
    else some pos

/-- `find_word_boundary`: forward (direction 1) skips the current
non-space run then the following space run; backward (direction -1)
skips spaces then the non-space run before the position.  Any other
direction returns the position unchanged. -/
def find_word_boundary (line : List Char) (pos : Nat) (direction : Int) : Option Nat :=
  if direction = 1 then
    let p1 := scan_fwd_nonspace line pos (line.length - pos)
    some (scan_fwd_space line p1 (line.length - p1))
  else if direction = -1 then
    match scan_back_space line pos pos with
    | some p1 =>
      match scan_back_nonspace line p1 p1 with
      | some p2 => some p2
      | none => none
    | none => none
  else some pos

/-- `find_word_end`: skip the non-space run at `pos`, then the trailing
space run (both loops guard `pos < len(line)` first, so this never
raises). -/
def find_word_end (line : List Char) (pos : Nat) : Nat :=
  let p1 := scan_fwd_nonspace line pos (line.length - pos)
  scan_fwd_space line p1 (line.length - p1)

/-- `next_word`: no-op on an empty document or empty line; otherwise
move to the next word start unless the forward scan ran off the end of
the line; then clamp. -/
def next_word (s : EditorState) : Option EditorState :=
  if s.content = [] then some s
  else
    match s.content.get? s.current_line with
    | none => none
    | some line =>
      if line = [] then some s
      else
        match find_word_boundary line s.current_row 1 with
        | none => none
        | some new_pos =>
          let original := s.current_row
          some (clamp_cursor
            { s with current_row := if line.length ≤ new_pos then original else new_pos })

/-- `previous_word`: no-op on an empty document or empty line; otherwise
move to the previous word start and clamp. -/
def previous_word (s : EditorState) : Option EditorState :=
  if s.content = [] then some s
  else
    match s.content.get? s.current_line with
    | none => none
    | some line =>
      if line = [] then some s
      else
        match find_word_boundary line s.current_row (-1) with
        | none => none
        | some new_pos => some (clamp_cursor { s with current_row := new_pos })

/-- `handle_cursor_toggle`: flip the row or line cursor flag. -/
def handle_cursor_toggle (s : EditorState) (cursor_type : String) : EditorState :=
  if cursor_type = "row" then { s with show_row_cursor := ¬s.show_row_cursor }
  else if cursor_type = "line" then { s with show_line_cursor := ¬s.show_line_cursor }
  else s

/-- `handle_h`: column left, bounded at 0 (`max(0, cr-1)` is truncated
subtraction on `Nat`). -/
def handle_h (s : EditorState) : EditorState :=
  { s with current_row := s.current_row - 1 }

/-- `handle_l`: column right, bounded at the current line's length. -/
def handle_l (s : EditorState) : Option EditorState :=
  if s.content ≠ [] then
    match s.content.get? s.current_line with
    | none => none
    | some line => some { s with current_row := min line.length (s.current_row + 1) }
  else some s

/-- `handle_j`: line index minus one when positive (this verb moves
up in this design). -/
def handle_j (s : EditorState) : EditorState :=
  if 0 < s.current_line then { s with current_line := s.current_line - 1 } else s

/-- `handle_k`: line index plus one when below the last line (this verb
moves down in this design). -/
def handle_k (s : EditorState) : EditorState :=
  if s.current_line < s.content.length - 1 then
    { s with current_line := s.current_line + 1 }
  else s

/-- `handle_caret`: column to 0. -/
def handle_caret (s : EditorState) : EditorState :=
  { s with current_row := 0 }

/-- `handle_dollar`: column to the current line's length, 0 on an empty
document. -/
def handle_dollar (s : EditorState) : Option EditorState :=
  if s.content ≠ [] then
    match s.content.get? s.current_line with
    | none => none
    | some line => some { s with current_row := line.length }
  else some { s with current_row := 0 }

/-- `handle_word_navigation`: dispatch to next/previous word motion. -/
def handle_word_navigation (s : EditorState) (direction : String) : Option EditorState :=
  if direction = "next" then next_word s
  else if direction = "previous" then previous_word s
  else some s

/-- `handle_i`: seed one empty line on an empty document, splice the
argument in before the cursor column, record `('i', arg)` in the
handler itself. -/
def handle_i (s : EditorState) (arg : List Char) : Option EditorState :=
  let content := if s.content = [] then [([] : List Char)] else s.content
  match content.get? s.current_line with
  | none => none
  | some line =>
    some { s with
      content := content.set s.current_line
        (line.take s.current_row ++ arg ++ line.drop s.current_row)
      command_history := (['i'], some arg) :: s.command_history }

/-- `handle_a`: seed one empty line on an empty document, splice the
argument in after the cursor column, advance the column by the argument
length, record `('a', arg)`. -/
def handle_a (s : EditorState) (arg : List Char) : Option EditorState :=
  let content := if s.content = [] then [([] : List Char)] else s.content
  match content.get? s.current_line with
  | none => none
  | some line =>
    some { s with
      content := content.set s.current_line
        (line.take (s.current_row + 1) ++ arg ++ line.drop (s.current_row + 1))
      current_row := s.current_row + arg.length
      command_history := (['a'], some arg) :: s.command_history }

/-- `handle_x`: delete the character at the cursor column when the
document and line are non-empty and the column is in range; record
`('x', none)` only when a character was deleted. -/
def handle_x (s : EditorState) : Option EditorState :=
  if s.content = [] then some s
  else
    match s.content.get? s.current_line with
    | none => none
    | some line =>
      if line ≠ [] ∧ s.current_row < line.length then
        some { s with
          content := s.content.set s.current_line
            (line.take s.current_row ++ line.drop (s.current_row + 1))
          command_history := (['x'], none) :: s.command_history }
      else some s

/-- `handle_dw`: delete from the cursor column to the end of the word
plus trailing spaces; no-op on an empty document or empty line
(Python's `or \x22\x22` maps an empty result to the empty string, which
is the identity here). -/
def handle_dw (s : EditorState) : Option EditorState :=
  if s.content = [] then some s
  else
    match s.content.get? s.current_line with
    | none => none
    | some line =>
      if line = [] then some s
      else
        some { s with
          content := s.content.set s.current_line
            (line.take s.current_row ++ line.drop (find_word_end line s.current_row))
          command_history := (['d','w'], none) :: s.command_history }

/-- `handle_yy`: copy the current line into the clipboard; no-op on an
empty document. -/
def handle_yy (s : EditorState) : Option EditorState :=
  if s.content ≠ [] then
    match s.content.get? s.current_line with
    | none => none
    | some line => some { s with clipboard := some line }
  else some s

/-- `handle_dd`: delete the current line (`del` raises when the line
index is out of range), re-clamp the line index into the remaining
bounds (0 when the document became empty), record `('dd', none)`. -/
def handle_dd (s : EditorState) : Option EditorState :=
  if s.content = [] then some s
  else if s.current_line < s.content.length then
    some { s with
      content := s.content.eraseIdx s.current_line
      current_line := if s.content.eraseIdx s.current_line = [] then 0
        else max 0 (min s.current_line ((s.content.eraseIdx s.current_line).length - 1))
      command_history := (['d','d'], none) :: s.command_history }
  else none

/-- Python `list.insert`, which clamps the index into `[0, len]`. -/
def list_insert (l : List (List Char)) (i : Nat) (x : List Char) : List (List Char) :=
  l.take i ++ x :: l.drop i

/-- `handle_insert_line`: insert an empty line above (`O`, cursor
unchanged) or below (`o`, cursor to the new line, column 0); each
records its own verb. -/
def handle_insert_line (s : EditorState) (above : Bool) : EditorState :=
  if above then
    { s with
      content := list_insert s.content s.current_line []
      command_history := (['O'], none) :: s.command_history }
  else
    { s with
      content := list_insert s.content (s.current_line + 1) []
      current_line := s.current_line + 1
      current_row := 0
      command_history := (['o'], none) :: s.command_history }

/-- `handle_paste`: when the clipboard is not None (even when it holds
the empty string), insert its line above (`P`) or below (`p`, cursor to
the new line); each records its own verb.  No-op when the clipboard is
None. -/
def handle_paste (s : EditorState) (above : Bool) : EditorState :=
  match s.clipboard with
  | none => s
  | some clip =>
    if above then
      { s with
        content := list_insert s.content s.current_line clip
        command_history := (['P'], none) :: s.command_history }
    else
      { s with
        content := list_insert s.content (s.current_line + 1) clip
        current_line := s.current_line + 1
        command_history := (['p'], none) :: s.command_history }

/-- `handle_u`: pop the most recent snapshot (if any) and restore it,
then pop the most recent history entry (if any). -/
def handle_u (s : EditorState) : EditorState :=
  match s.undo_stack with
  | [] => s
  | saved :: rest =>
    let s1 := restore_state { s with undo_stack := rest } saved
    match s1.command_history with
    | [] => s1
    | _ :: h => { s1 with command_history := h }

/-- `handle_r`: re-dispatch the most recent history entry through the
full `handle_command` path (passed in as `rec`); no-op on empty
history. -/
def handle_r (rec : EditorState → List Char → Option (List Char) → Option EditorState)
    (s : EditorState) : Option EditorState :=
  match s.command_history with
  | [] => some s
  | (v, a) :: _ => rec s v a

/-- The `command_map` lookup plus handler invocation: each key of the
source's table dispatches to its handler; an unmatched verb leaves the
state unchanged (`command_map.get` returned None).  `i`/`a` with a None
argument raise a TypeError at the string concatenation, modelled as
`none`. -/
def run_handler (rec : EditorState → List Char → Option (List Char) → Option EditorState)
    (s : EditorState) (cmd : List Char) (arg : Option (List Char)) : Option EditorState :=
  if cmd = ['.'] then some (handle_cursor_toggle s "row")
  else if cmd = [';'] then some (handle_cursor_toggle s "line")
  else if cmd = ['h'] then some (handle_h s)
  else if cmd = ['l'] then handle_l s
  else if cmd = ['j'] then some (handle_j s)
  else if cmd = ['k'] then some (handle_k s)
  else if cmd = ['^'] then some (handle_caret s)
  else if cmd = ['w'] then handle_word_navigation s "next"
  else if cmd = ['b'] then handle_word_navigation s "previous"
  else if cmd = ['$'] then handle_dollar s
  else if cmd = ['i'] then
    match arg with
    | some a => handle_i s a
    | none => none
  else if cmd = ['a'] then
    match arg with
    | some a => handle_a s a
    | none => none
  else if cmd = ['x'] then handle_x s
  else if cmd = ['d','w'] then handle_dw s
  else if cmd = ['y','y'] then handle_yy s
  else if cmd = ['d','d'] then handle_dd s
  else if cmd = ['o'] then some (handle_insert_line s false)
  else if cmd = ['O'] then some (handle_insert_line s true)
  else if cmd = ['p'] then some (handle_paste s false)
  else if cmd = ['P'] then some (handle_paste s true)
  else if cmd = ['u'] then some (handle_u s)
  else if cmd = ['r'] then handle_r rec s
  else some s

/-- The verbs the dispatcher exempts from snapshotting and recording. -/
def excluded_verbs : List (List Char) := [['u'], ['r'], ['?'], ['s']]

/-- The keys of `command_map`. -/
def command_map_keys : List (List Char) :=
  [['.'], [';'], ['h'], ['l'], ['j'], ['k'], ['^'], ['w'], ['b'], ['$'],
   ['i'], ['a'], ['x'], ['d','w'], ['y','y'], ['d','d'], ['o'], ['O'],
   ['p'], ['P'], ['u'], ['r']]

/-- Lines 511-515 of the dispatcher: append `(cmd, arg)` for a mutating
verb found in the table, or for `u` pop one more history entry. -/
def post_history (s : EditorState) (cmd : List Char) (arg : Option (List Char)) :
    EditorState :=
  if cmd ∉ excluded_verbs then
    if cmd ∈ command_map_keys ∧ cmd ≠ ['r'] then
      { s with command_history := (cmd, arg) :: s.command_history }
    else s
  else if cmd = ['u'] ∧ s.command_history ≠ [] then
    { s with command_history := s.command_history.tail }
  else s

/-- `handle_command`: snapshot before any verb outside
{u, r, ?, s}, run the handler from the table, clamp the cursor
unconditionally, then do the history bookkeeping.  The fuel bounds the
`r` re-entry. -/
def handle_command_fuel : Nat → EditorState → List Char → Option (List Char) →
    Option EditorState
  | 0, _, _, _ => none
  | fuel + 1, s, cmd, arg =>
    let s0 := if cmd ∈ excluded_verbs then s else save_state s
    match run_handler (handle_command_fuel fuel) s0 cmd arg with
    | none => none
    | some s1 => some (post_history (clamp_cursor s1) cmd arg)

/-- `handle_command` at the fuel sufficient for every recorded history
(recorded entries are never `u` or `r`, so replay does not re-enter). -/
def handle_command (s : EditorState) (cmd : List Char) (arg : Option (List Char)) :
    Option EditorState :=
  handle_command_fuel 2 s cmd arg

/-- The length of the line under the cursor (0 when the cursor line is
out of range or the document is empty). -/
def current_line_length (s : EditorState) : Nat :=
  ((s.content.get? s.current_line).getD []).length

/-- The cursor invariant of the spec: line index in
`[0, max(0, line_count - 1)]` and column index in
`[0, max(0, current_line_length - 1)]` (both collapse to 0 on an empty
document or empty line). -/
def cursorInBounds (s : EditorState) : Prop :=
  s.current_line ≤ max 0 (s.content.length - 1) ∧
  s.current_row ≤ max 0 (current_line_length s - 1)

attribute [ext] EditorState

/-! Field bookkeeping lemmas. -/

@[simp] theorem save_state_content (s : EditorState) : (save_state s).content = s.content := rfl

@[simp] theorem save_state_current_line (s : EditorState) :
    (save_state s).current_line = s.current_line := rfl

@[simp] theorem save_state_current_row (s : EditorState) :
    (save_state s).current_row = s.current_row := rfl

@[simp] theorem save_state_show_line (s : EditorState) :
    (save_state s).show_line_cursor = s.show_line_cursor := rfl

@[simp] theorem save_state_show_row (s : EditorState) :
    (save_state s).show_row_cursor = s.show_row_cursor := rfl

@[simp] theorem save_state_clipboard (s : EditorState) :
    (save_state s).clipboard = s.clipboard := rfl

@[simp] theorem save_state_history (s : EditorState) :
    (save_state s).command_history = s.command_history := rfl

@[simp] theorem save_state_undo (s : EditorState) :
    (save_state s).undo_stack = snapshot_of s :: s.undo_stack := rfl

@[simp] theorem clamp_cursor_content (s : EditorState) :
    (clamp_cursor s).content = s.content := rfl

@[simp] theorem clamp_cursor_show_line (s : EditorState) :
    (clamp_cursor s).show_line_cursor = s.show_line_cursor := rfl

@[simp] theorem clamp_cursor_show_row (s : EditorState) :
    (clamp_cursor s).show_row_cursor = s.show_row_cursor := rfl

@[simp] theorem clamp_cursor_clipboard (s : EditorState) :
    (clamp_cursor s).clipboard = s.clipboard := rfl

@[simp] theorem clamp_cursor_undo (s : EditorState) :
    (clamp_cursor s).undo_stack = s.undo_stack := rfl

@[simp] theorem clamp_cursor_history (s : EditorState) :
    (clamp_cursor s).command_history = s.command_history := rfl

@[simp] theorem clamp_cursor_line (s : EditorState) :
    (clamp_cursor s).current_line = clamp_line s.content s.current_line := rfl

@[simp] theorem clamp_cursor_row (s : EditorState) :
    (clamp_cursor s).current_row =
      clamp_row s.content (clamp_line s.content s.current_line) s.current_row := rfl

@[simp] theorem post_history_content (s : EditorState) (cmd arg) :
    (post_history s cmd arg).content = s.content := by
  unfold post_history; split_ifs <;> rfl

@[simp] theorem post_history_current_line (s : EditorState) (cmd arg) :
    (post_history s cmd arg).current_line = s.current_line := by
  unfold post_history; split_ifs <;> rfl

@[simp] theorem post_history_current_row (s : EditorState) (cmd arg) :
    (post_history s cmd arg).current_row = s.current_row := by
  unfold post_history; split_ifs <;> rfl

@[simp] theorem post_history_show_line (s : EditorState) (cmd arg) :
    (post_history s cmd arg).show_line_cursor = s.show_line_cursor := by
  unfold post_history; split_ifs <;> rfl

@[simp] theorem post_history_show_row (s : EditorState) (cmd arg) :
    (post_history s cmd arg).show_row_cursor = s.show_row_cursor := by
  unfold post_history; split_ifs <;> rfl

@[simp] theorem post_history_clipboard (s : EditorState) (cmd arg) :
    (post_history s cmd arg).clipboard = s.clipboard := by
  unfold post_history; split_ifs <;> rfl

@[simp] theorem post_history_undo (s : EditorState) (cmd arg) :
    (post_history s cmd arg).undo_stack = s.undo_stack := by
  unfold post_history; split_ifs <;> rfl

/-- Unfolding `handle_command` one dispatch step. -/
theorem handle_command_def (s : EditorState) (cmd : List Char) (arg : Option (List Char)) :
    handle_command s cmd arg =
      match run_handler (handle_command_fuel 1)
          (if cmd ∈ excluded_verbs then s else save_state s) cmd arg with
      | none => none
      | some s1 => some (post_history (clamp_cursor s1) cmd arg) := rfl

/-! Clamp properties. -/

theorem clamp_line_le (content : List (List Char)) (cl : Nat) :
    clamp_line content cl ≤ max 0 (content.length - 1) := by
  unfold clamp_line; split_ifs <;> omega

theorem line_length_at_eq (content : List (List Char)) (cl : Nat) :
    line_length_at content cl = ((content.get? cl).getD []).length := by
  unfold line_length_at
  split_ifs with h
  · rfl
  · rcases not_and_or.mp h with h1 | h2
    · have hc : content = [] := not_not.mp h1
      subst hc; rfl
    · have hn : content.get? cl = none := List.get?_eq_none.mpr (by omega)
      rw [hn]; rfl

theorem clamp_row_le (content : List (List Char)) (cl cr : Nat) :
    clamp_row content cl cr ≤ max 0 (((content.get? cl).getD []).length - 1) := by
  unfold clamp_row
  rw [line_length_at_eq]
  split_ifs <;> omega

theorem clamp_line_idem (content : List (List Char)) (cl : Nat) :
    clamp_line content (clamp_line content cl) = clamp_line content cl := by
  unfold clamp_line; split_ifs <;> omega

theorem clamp_row_idem (content : List (List Char)) (cl cr : Nat) :
    clamp_row content cl (clamp_row content cl cr) = clamp_row content cl cr := by
  unfold clamp_row
  split_ifs <;> omega

theorem clamp_cursor_inBounds (s : EditorState) : cursorInBounds (clamp_cursor s) := by
  constructor
  · simpa using clamp_line_le s.content s.current_line
  · simpa [current_line_length] using
      clamp_row_le s.content (clamp_line s.content s.current_line) s.current_row

theorem clamp_cursor_idem (s : EditorState) :
    clamp_cursor (clamp_cursor s) = clamp_cursor s := by
  ext <;> simp [clamp_line_idem, clamp_row_idem]

/-- A state already fixed by `clamp_cursor` stays fixed after changes
that leave the document and cursor untouched. -/
theorem clamp_cursor_fixed_of (s v : EditorState) (h : clamp_cursor s = s)
    (hc : v.content = s.content) (hl : v.current_line = s.current_line)
    (hr : v.current_row = s.current_row) : clamp_cursor v = v := by
  have e1 : clamp_line s.content s.current_line = s.current_line := by
    have := congrArg EditorState.current_line h
    simpa using this
  have e2 : clamp_row s.content s.current_line s.current_row = s.current_row := by
    have := congrArg EditorState.current_row h
    simpa [e1] using this
  ext
  · rfl
  · simp [hc, hl, e1]
  · simp [hc, hl, hr, e1, e2]
  · rfl
  · rfl
  · rfl
  · rfl
  · rfl

/-- `cursorInBounds` only looks at the document and cursor, which
`post_history` leaves untouched. -/
@[simp] theorem cursorInBounds_post (s : EditorState) (cmd arg) :
    cursorInBounds (post_history s cmd arg) ↔ cursorInBounds s := by
  unfold cursorInBounds current_line_length
  simp

/-! Dispatch-table equations: `run_handler` at each concrete key. -/

theorem run_handler_dot (rec s arg) :
    run_handler rec s ['.'] arg = some (handle_cursor_toggle s "row") := rfl

theorem run_handler_semi (rec s arg) :
    run_handler rec s [';'] arg = some (handle_cursor_toggle s "line") := rfl

theorem run_handler_h (rec s arg) : run_handler rec s ['h'] arg = some (handle_h s) := rfl

theorem run_handler_l (rec s arg) : run_handler rec s ['l'] arg = handle_l s := rfl

theorem run_handler_j (rec s arg) : run_handler rec s ['j'] arg = some (handle_j s) := rfl

theorem run_handler_k (rec s arg) : run_handler rec s ['k'] arg = some (handle_k s) := rfl

theorem run_handler_caret (rec s arg) :
    run_handler rec s ['^'] arg = some (handle_caret s) := rfl

theorem run_handler_w (rec s arg) :
    run_handler rec s ['w'] arg = handle_word_navigation s "next" := rfl

theorem run_handler_b (rec s arg) :
    run_handler rec s ['b'] arg = handle_word_navigation s "previous" := rfl

theorem run_handler_dollar (rec s arg) :
    run_handler rec s ['$'] arg = handle_dollar s := rfl

theorem run_handler_i (rec s a) :
    run_handler rec s ['i'] (some a) = handle_i s a := rfl

theorem run_handler_a (rec s a) :
    run_handler rec s ['a'] (some a) = handle_a s a := rfl

theorem run_handler_x (rec s arg) : run_handler rec s ['x'] arg = handle_x s := rfl

theorem run_handler_dw (rec s arg) :
    run_handler rec s ['d','w'] arg = handle_dw s := rfl

theorem run_handler_yy (rec s arg) :
    run_handler rec s ['y','y'] arg = handle_yy s := rfl

theorem run_handler_dd (rec s arg) :
    run_handler rec s ['d','d'] arg = handle_dd s := rfl

theorem run_handler_o (rec s arg) :
    run_handler rec s ['o'] arg = some (handle_insert_line s false) := rfl

theorem run_handler_O (rec s arg) :
    run_handler rec s ['O'] arg = some (handle_insert_line s true) := rfl

theorem run_handler_p (rec s arg) :
    run_handler rec s ['p'] arg = some (handle_paste s false) := rfl

theorem run_handler_P (rec s arg) :
    run_handler rec s ['P'] arg = some (handle_paste s true) := rfl

theorem run_handler_u (rec s arg) : run_handler rec s ['u'] arg = some (handle_u s) := rfl

theorem run_handler_r (rec s arg) : run_handler rec s ['r'] arg = handle_r rec s := rfl

/-! Per-handler bookkeeping: which handlers leave the undo stack and
command history untouched. -/

theorem handle_toggle_stacks (s : EditorState) (t : String) :
    (handle_cursor_toggle s t).undo_stack = s.undo_stack ∧
    (handle_cursor_toggle s t).command_history = s.command_history := by
  unfold handle_cursor_toggle; split_ifs <;> exact ⟨rfl, rfl⟩

theorem handle_h_stacks (s : EditorState) :
    (handle_h s).undo_stack = s.undo_stack ∧
    (handle_h s).command_history = s.command_history := ⟨rfl, rfl⟩

theorem handle_j_stacks (s : EditorState) :
    (handle_j s).undo_stack = s.undo_stack ∧
    (handle_j s).command_history = s.command_history := by
  unfold handle_j; split_ifs <;> exact ⟨rfl, rfl⟩

theorem handle_k_stacks (s : EditorState) :
    (handle_k s).undo_stack = s.undo_stack ∧
    (handle_k s).command_history = s.command_history := by
  unfold handle_k; split_ifs <;> exact ⟨rfl, rfl⟩

theorem handle_caret_stacks (s : EditorState) :
    (handle_caret s).undo_stack = s.undo_stack ∧
    (handle_caret s).command_history = s.command_history := ⟨rfl, rfl⟩

theorem handle_l_stacks {s t : EditorState} (h : handle_l s = some t) :
    t.undo_stack = s.undo_stack ∧ t.command_history = s.command_history := by
  unfold handle_l at h
  split at h
  · cases hg : s.content.get? s.current_line <;> rw [hg] at h
    · cases h
    · cases h; exact ⟨rfl, rfl⟩
  · cases h; exact ⟨rfl, rfl⟩

theorem handle_dollar_stacks {s t : EditorState} (h : handle_dollar s = some t) :
    t.undo_stack = s.undo_stack ∧ t.command_history = s.command_history := by
  unfold handle_dollar at h
  split at h
  · cases hg : s.content.get? s.current_line <;> rw [hg] at h
    · cases h
    · cases h; exact ⟨rfl, rfl⟩
  · cases h; exact ⟨rfl, rfl⟩

theorem next_word_stacks {s t : EditorState} (h : next_word s = some t) :
    t.undo_stack = s.undo_stack ∧ t.command_history = s.command_history := by
  unfold next_word at h
  split at h
  · cases h; exact ⟨rfl, rfl⟩
  · split at h
    · cases h
    · split at h
      · cases h; exact ⟨rfl, rfl⟩
      · split at h
        · cases h
        · cases h; exact ⟨rfl, rfl⟩

theorem previous_word_stacks {s t : EditorState} (h : previous_word s = some t) :
    t.undo_stack = s.undo_stack ∧ t.command_history = s.command_history := by
  unfold previous_word at h
  split at h
  · cases h; exact ⟨rfl, rfl⟩
  · split at h
    · cases h
    · split at h
      · cases h; exact ⟨rfl, rfl⟩
      · split at h
        · cases h
        · cases h; exact ⟨rfl, rfl⟩

theorem handle_word_navigation_stacks {s t : EditorState} {d : String}
    (h : handle_word_navigation s d = some t) :
    t.undo_stack = s.undo_stack ∧ t.command_history = s.command_history := by
  unfold handle_word_navigation at h
  split_ifs at h
  · exact next_word_stacks h
  · exact previous_word_stacks h
  · cases h; exact ⟨rfl, rfl⟩

theorem handle_yy_stacks {s t : EditorState} (h : handle_yy s = some t) :
    t.undo_stack = s.undo_stack ∧ t.command_history = s.command_history := by
  unfold handle_yy at h
  split at h
  · cases hg : s.content.get? s.current_line <;> rw [hg] at h
    · cases h
    · cases h; exact ⟨rfl, rfl⟩
  · cases h; exact ⟨rfl, rfl⟩

theorem handle_i_spec {s t : EditorState} {a : List Char} (h : handle_i s a = some t) :
    t.undo_stack = s.undo_stack ∧
    t.command_history = (['i'], some a) :: s.command_history := by
  unfold handle_i at h
  split at h <;> simp only [] at h <;> split at h <;> cases h <;> exact ⟨rfl, rfl⟩

theorem handle_a_spec {s t : EditorState} {a : List Char} (h : handle_a s a = some t) :
    t.undo_stack = s.undo_stack ∧
    t.command_history = (['a'], some a) :: s.command_history := by
  unfold handle_a at h
  split at h <;> simp only [] at h <;> split at h <;> cases h <;> exact ⟨rfl, rfl⟩

theorem handle_x_undo {s t : EditorState} (h : handle_x s = some t) :
    t.undo_stack = s.undo_stack := by
  unfold handle_x at h
  split at h
  · cases h; rfl
  · split at h
    · cases h
    · split at h <;> (cases h; rfl)

theorem handle_dw_undo {s t : EditorState} (h : handle_dw s = some t) :
    t.undo_stack = s.undo_stack := by
  unfold handle_dw at h
  split at h
  · cases h; rfl
  · split at h
    · cases h
    · split at h <;> (cases h; rfl)

theorem handle_dd_undo {s t : EditorState} (h : handle_dd s = some t) :
    t.undo_stack = s.undo_stack := by
  unfold handle_dd at h
  split_ifs at h <;> cases h <;> rfl

theorem handle_insert_line_undo (s : EditorState) (above : Bool) :
    (handle_insert_line s above).undo_stack = s.undo_stack := by
  unfold handle_insert_line; split_ifs <;> rfl

theorem handle_paste_undo (s : EditorState) (above : Bool) :
    (handle_paste s above).undo_stack = s.undo_stack := by
  unfold handle_paste
  cases s.clipboard
  · rfl
  · split_ifs <;> rfl

/-- For every verb other than `u` and `r`, a successful handler run
leaves the undo stack exactly as it was. -/
theorem run_handler_undo {rec} {s t : EditorState} {cmd : List Char}
    {arg : Option (List Char)}
    (hu : cmd ≠ ['u']) (hr : cmd ≠ ['r'])
    (h : run_handler rec s cmd arg = some t) : t.undo_stack = s.undo_stack := by
  unfold run_handler at h
  by_cases h1 : cmd = ['.']
  · rw [if_pos h1] at h; cases h; exact (handle_toggle_stacks s "row").1
  rw [if_neg h1] at h
  by_cases h2 : cmd = [';']
  · rw [if_pos h2] at h; cases h; exact (handle_toggle_stacks s "line").1
  rw [if_neg h2] at h
  by_cases h3 : cmd = ['h']
  · rw [if_pos h3] at h; cases h; rfl
  rw [if_neg h3] at h
  by_cases h4 : cmd = ['l']
  · rw [if_pos h4] at h; exact (handle_l_stacks h).1
  rw [if_neg h4] at h
  by_cases h5 : cmd = ['j']
  · rw [if_pos h5] at h; cases h; exact (handle_j_stacks s).1
  rw [if_neg h5] at h
  by_cases h6 : cmd = ['k']
  · rw [if_pos h6] at h; cases h; exact (handle_k_stacks s).1
  rw [if_neg h6] at h
  by_cases h7 : cmd = ['^']
  · rw [if_pos h7] at h; cases h; rfl
  rw [if_neg h7] at h
  by_cases h8 : cmd = ['w']
  · rw [if_pos h8] at h; exact (handle_word_navigation_stacks h).1
  rw [if_neg h8] at h
  by_cases h9 : cmd = ['b']
  · rw [if_pos h9] at h; exact (handle_word_navigation_stacks h).1
  rw [if_neg h9] at h
  by_cases h10 : cmd = ['$']
  · rw [if_pos h10] at h; exact (handle_dollar_stacks h).1
  rw [if_neg h10] at h
  by_cases h11 : cmd = ['i']
  · rw [if_pos h11] at h
    cases arg with
    | none => cases h
    | some a => exact (handle_i_spec h).1
  rw [if_neg h11] at h
  by_cases h12 : cmd = ['a']
  · rw [if_pos h12] at h
    cases arg with
    | none => cases h
    | some a => exact (handle_a_spec h).1
  rw [if_neg h12] at h
  by_cases h13 : cmd = ['x']
  · rw [if_pos h13] at h; exact handle_x_undo h
  rw [if_neg h13] at h
  by_cases h14 : cmd = ['d','w']
  · rw [if_pos h14] at h; exact handle_dw_undo h
  rw [if_neg h14] at h
  by_cases h15 : cmd = ['y','y']
  · rw [if_pos h15] at h; exact (handle_yy_stacks h).1
  rw [if_neg h15] at h
  by_cases h16 : cmd = ['d','d']
  · rw [if_pos h16] at h; exact handle_dd_undo h
  rw [if_neg h16] at h
  by_cases h17 : cmd = ['o']
  · rw [if_pos h17] at h; cases h; exact handle_insert_line_undo s false
  rw [if_neg h17] at h
  by_cases h18 : cmd = ['O']
  · rw [if_pos h18] at h; cases h; exact handle_insert_line_undo s true
  rw [if_neg h18] at h
  by_cases h19 : cmd = ['p']
  · rw [if_pos h19] at h; cases h; exact handle_paste_undo s false
  rw [if_neg h19] at h
  by_cases h20 : cmd = ['P']
  · rw [if_pos h20] at h; cases h; exact handle_paste_undo s true
  rw [if_neg h20] at h
  rw [if_neg hu, if_neg hr] at h
  cases h; rfl

/-! The claims. -/

/-- C1: after dispatching any parsed command through `handle_command`
(mutating or not), the cursor line index lies in
`[0, max(0, line_count - 1)]` and the cursor column index lies in
`[0, max(0, current_line_length - 1)]` (0 on an empty line or empty
document); moreover `clamp_cursor` is idempotent, and it is total,
sending an empty document to cursor (0,0) and an empty current line to
column 0. -/
theorem c1_cursor_clamp_invariant :
    (∀ s cmd arg s', handle_command s cmd arg = some s' → cursorInBounds s') ∧
    (∀ t, clamp_cursor (clamp_cursor t) = clamp_cursor t) ∧
    (∀ t : EditorState, t.content = [] →
      clamp_cursor t = { t with current_line := 0, current_row := 0 }) ∧
    (∀ t : EditorState, t.content.get? (clamp_cursor t).current_line = some [] →
      (clamp_cursor t).current_row = 0) := by
  refine ⟨?_, clamp_cursor_idem, ?_, ?_⟩
  · intro s cmd arg s' h
    rw [handle_command_def] at h
    rcases hrun : run_handler (handle_command_fuel 1)
        (if cmd ∈ excluded_verbs then s else save_state s) cmd arg with _ | s1
    · rw [hrun] at h; cases h
    · rw [hrun] at h
      cases h
      rw [cursorInBounds_post]
      exact clamp_cursor_inBounds s1
  · intro t ht
    ext <;> simp [clamp_cursor, clamp_line, clamp_row, line_length_at, ht]
  · intro t ht
    simp only [clamp_cursor_line] at ht
    simp only [clamp_cursor_row]
    unfold clamp_row
    rw [line_length_at_eq, ht]
    simp

/-- Witness for C1 at the concrete dispatch of `h` from the initial
state. -/
theorem c1_cursor_clamp_invariant_witness :
    cursorInBounds
      (post_history (clamp_cursor (handle_h (save_state initialize_state))) ['h'] none) :=
  c1_cursor_clamp_invariant.1 initialize_state ['h'] none _ rfl

/-- C4: from the initial empty document, dispatching `i` with argument
"hi" and then `r` yields the document ["hihi"] with the cursor still at
(0,0); after the first insert alone the document is ["hi"] and the
cursor column is still 0. -/
theorem c4_insert_then_repeat :
    ((handle_command initialize_state ['i'] (some (chars "hi"))).bind
        (fun t => handle_command t ['r'] none)).map
      (fun u => (u.content, u.current_line, u.current_row)) =
        some ([chars "hihi"], 0, 0) ∧
    (handle_command initialize_state ['i'] (some (chars "hi"))).map
      (fun t => (t.content, t.current_row)) = some ([chars "hi"], 0) := by decide

/-- C5: the parser rejects the bare tokens "i" and "a" and the unknown
token "z" with (none, none), and sends any string of length > 1
beginning with 'i' (resp. 'a') to verb 'i' (resp. 'a') with the rest of
the string as the argument. -/
theorem c5_parse_contract (x : Char) (xs : List Char) :
    parse_command ['i'] = (none, none) ∧
    parse_command ['a'] = (none, none) ∧
    parse_command ['z'] = (none, none) ∧
    parse_command ('i' :: x :: xs) = (some ['i'], some (x :: xs)) ∧
    parse_command ('a' :: x :: xs) = (some ['a'], some (x :: xs)) := by
  refine ⟨by decide, by decide, by decide, ?_, ?_⟩
  · unfold parse_command; simp
  · unfold parse_command; simp

/-- C7: `yy` then `p` on the document ["abc"] with cursor line 0 yields
["abc", "abc"] with the cursor on line 1. -/
theorem c7_yank_paste_roundtrip :
    ((handle_command { initialize_state with content := [chars "abc"] } ['y','y'] none).bind
        (fun t => handle_command t ['p'] none)).map
      (fun u => (u.content, u.current_line)) =
        some ([chars "abc", chars "abc"], 1) := by decide

/-- A starting state with an out-of-range cursor column for the C2
counterexample. -/
def c2_start : EditorState :=
  { initialize_state with content := [chars "ab"], current_row := 5 }

/-- C2 counterexample: from the state with document ["ab"] and cursor
column 5, dispatching the mutating toggle `.` and then `u` yields cursor
column 1, not the starting column 5 — undo re-clamps the restored
cursor, so undo after a mutating command does not restore the snapshot
field set exactly for every starting state. -/
theorem c2_counterexample :
    ((handle_command c2_start ['.'] none).bind (fun t => handle_command t ['u'] none)).map
      (fun u => u.current_row) = some 1 ∧ c2_start.current_row = 5 := by decide

/-- C3 counterexample: dispatching the single mutating command `i` with
argument "hi" from the initial state appends TWO history entries (one
in `handle_i`, one in the dispatcher) while pushing one undo snapshot,
so the command history length does not equal the undo stack length. -/
theorem c3_counterexample :
    (handle_command initialize_state ['i'] (some (chars "hi"))).map
      (fun t => (t.command_history.length, t.undo_stack.length)) = some (2, 1) := by decide

/-- A state whose clipboard holds the empty string for the C6
counterexample. -/
def c6_start : EditorState :=
  { initialize_state with content := [chars "a"], clipboard := some [] }

/-- C6 counterexample: with document ["a"], cursor at (0,0) and the
clipboard holding the EMPTY string (as a `yy` on an empty line
produces), dispatching `p` inserts an empty line and moves the cursor
to line 1 — an empty (but present) clipboard is not a no-op. -/
theorem c6_counterexample :
    (handle_command c6_start ['p'] none).map (fun t => (t.content, t.current_line)) =
      some ([chars "a", []], 1) ∧
    c6_start.content = [chars "a"] ∧ c6_start.current_line = 0 := by decide

@[simp] theorem restore_state_history (s : EditorState) (saved : Snapshot) :
    (restore_state s saved).command_history = s.command_history := rfl

@[simp] theorem restore_state_undo (s : EditorState) (saved : Snapshot) :
    (restore_state s saved).undo_stack = s.undo_stack := rfl

theorem snapshot_of_restore (s : EditorState) (saved : Snapshot) :
    snapshot_of (restore_state s saved) = saved := rfl

theorem snapshot_of_post (s : EditorState) (cmd arg) :
    snapshot_of (post_history s cmd arg) = snapshot_of s := by
  simp [snapshot_of]

/-- `handle_u` on a state with a non-empty undo stack restores exactly
the snapshot on top of the stack (the history pop does not touch the
snapshot fields). -/
theorem handle_u_snapshot {s : EditorState} {snap : Snapshot} {rest : List Snapshot}
    (h : s.undo_stack = snap :: rest) : snapshot_of (handle_u s) = snap := by
  have e : handle_u s =
      (match (restore_state { s with undo_stack := rest } snap).command_history with
       | [] => restore_state { s with undo_stack := rest } snap
       | _ :: hist =>
         { restore_state { s with undo_stack := rest } snap with command_history := hist }) := by
    unfold handle_u; rw [h]
  rw [e]
  cases hh : (restore_state { s with undo_stack := rest } snap).command_history <;> rfl

/-- C2 (amended): for a starting state that `clamp_cursor` already
fixes, dispatching any verb outside {u, r, ?, s} with any argument and
then dispatching undo restores the document, cursor line, cursor
column, both toggle flags and the clipboard (the snapshot field set)
exactly.  (The un-amended claim fails for starting states whose cursor
is out of bounds, because undo re-clamps the restored cursor.) -/
theorem c2_amended_undo_left_inverse (s s1 s2 : EditorState) (cmd : List Char)
    (arg : Option (List Char))
    (hclamped : clamp_cursor s = s)
    (hmut : cmd ∉ excluded_verbs)
    (h1 : handle_command s cmd arg = some s1)
    (h2 : handle_command s1 ['u'] none = some s2) :
    snapshot_of s2 = snapshot_of s := by
  have hu : cmd ≠ ['u'] := by
    intro e; exact hmut (by rw [e]; simp [excluded_verbs])
  have hr : cmd ≠ ['r'] := by
    intro e; exact hmut (by rw [e]; simp [excluded_verbs])
  rw [handle_command_def, if_neg hmut] at h1
  rcases hrun : run_handler (handle_command_fuel 1) (save_state s) cmd arg with _ | t
  · rw [hrun] at h1; cases h1
  · rw [hrun] at h1
    cases h1
    have hs1undo :
        (post_history (clamp_cursor t) cmd arg).undo_stack =
          snapshot_of s :: s.undo_stack := by
      rw [post_history_undo, clamp_cursor_undo, run_handler_undo hu hr hrun, save_state_undo]
    rw [handle_command_def, if_pos (by simp [excluded_verbs])] at h2
    rw [show run_handler (handle_command_fuel 1)
        (post_history (clamp_cursor t) cmd arg) ['u'] none =
        some (handle_u (post_history (clamp_cursor t) cmd arg)) from rfl] at h2
    cases h2
    have hsnap : snapshot_of (handle_u (post_history (clamp_cursor t) cmd arg)) =
        snapshot_of s := handle_u_snapshot hs1undo
    have hcv : clamp_cursor (handle_u (post_history (clamp_cursor t) cmd arg)) =
        handle_u (post_history (clamp_cursor t) cmd arg) := by
      apply clamp_cursor_fixed_of s _ hclamped
      · exact congrArg Snapshot.content hsnap
      · exact congrArg Snapshot.current_line hsnap
      · exact congrArg Snapshot.current_row hsnap
    rw [snapshot_of_post, hcv, hsnap]

/-- The intermediate state of the C2 witness: the result of dispatching
`h` from the initial state. -/
def c2w_s1 : EditorState :=
  post_history (clamp_cursor (handle_h (save_state initialize_state))) ['h'] none

/-- The final state of the C2 witness: the result of dispatching `u`
after that. -/
def c2w_s2 : EditorState :=
  post_history (clamp_cursor (handle_u c2w_s1)) ['u'] none

/-- Witness for the amended C2 at the concrete pair `h` then `u` from
the initial state. -/
theorem c2_amended_undo_left_inverse_witness :
    snapshot_of c2w_s2 = snapshot_of initialize_state :=
  c2_amended_undo_left_inverse initialize_state c2w_s1 c2w_s2 ['h'] none
    (by decide) (by decide) rfl rfl

/-- C3 (amended): the bookkeeping really performed by the dispatcher:
(A) every successful dispatch of a verb outside {u, r, ?, s} pushes
exactly one undo snapshot; (B) dispatching `i` appends TWO history
entries (the handler records `('i', arg)` itself and the dispatcher
appends again); (C) dispatching a verb whose handler does not
self-record (here `h`) appends exactly one; (D) undo pops one snapshot
but TWO history entries (one in `handle_u`, one in the dispatcher).
Hence command-history length and undo-stack depth are not in
lockstep. -/
theorem c3_amended_history_bookkeeping :
    (∀ s cmd arg s', cmd ∉ excluded_verbs → handle_command s cmd arg = some s' →
      s'.undo_stack.length = s.undo_stack.length + 1) ∧
    (∀ (s : EditorState) (a : List Char) s',
      handle_command s ['i'] (some a) = some s' →
      s'.command_history.length = s.command_history.length + 2) ∧
    (∀ (s : EditorState) arg s', handle_command s ['h'] arg = some s' →
      s'.command_history.length = s.command_history.length + 1) ∧
    (∀ (s : EditorState) s', s.undo_stack ≠ [] → 2 ≤ s.command_history.length →
      handle_command s ['u'] none = some s' →
      s'.undo_stack.length + 1 = s.undo_stack.length ∧
      s'.command_history.length + 2 = s.command_history.length) := by
  refine ⟨?_, ?_, ?_, ?_⟩
  · intro s cmd arg s' hmut h
    have hu : cmd ≠ ['u'] := by
      intro e; exact hmut (by rw [e]; simp [excluded_verbs])
    have hr : cmd ≠ ['r'] := by
      intro e; exact hmut (by rw [e]; simp [excluded_verbs])
    rw [handle_command_def, if_neg hmut] at h
    rcases hrun : run_handler (handle_command_fuel 1) (save_state s) cmd arg with _ | t
    · rw [hrun] at h; cases h
    · rw [hrun] at h
      cases h
      rw [post_history_undo, clamp_cursor_undo, run_handler_undo hu hr hrun, save_state_undo]
      rfl
  · intro s a s' h
    rw [handle_command_def, if_neg (by decide)] at h
    rw [show run_handler (handle_command_fuel 1) (save_state s) ['i'] (some a) =
        handle_i (save_state s) a from rfl] at h
    rcases hi : handle_i (save_state s) a with _ | t
    · rw [hi] at h; cases h
    · rw [hi] at h
      cases h
      have ht := (handle_i_spec hi).2
      simp [post_history, excluded_verbs, command_map_keys, ht]
  · intro s arg s' h
    rw [show handle_command s ['h'] arg =
        some (post_history (clamp_cursor (handle_h (save_state s))) ['h'] arg) from rfl] at h
    cases h
    simp [post_history, excluded_verbs, command_map_keys, handle_h]
  · intro s s' hne hlen h
    obtain ⟨snap, rest, hundo⟩ : ∃ snap rest, s.undo_stack = snap :: rest := by
      cases hc : s.undo_stack with
      | nil => exact absurd hc hne
      | cons a l => exact ⟨a, l, rfl⟩
    obtain ⟨e1, e2, hrest, hhist⟩ :
        ∃ e1 e2 hrest, s.command_history = e1 :: e2 :: hrest := by
      cases hc : s.command_history with
      | nil => rw [hc] at hlen; simp at hlen
      | cons a l =>
        cases hl : l with
        | nil => rw [hc, hl] at hlen; simp at hlen
        | cons b l2 => exact ⟨a, b, l2, rfl⟩
    rw [show handle_command s ['u'] none =
        some (post_history (clamp_cursor (handle_u s)) ['u'] none) from rfl] at h
    cases h
    have e : handle_u s =
        (match (restore_state { s with undo_stack := rest } snap).command_history with
         | [] => restore_state { s with undo_stack := rest } snap
         | _ :: hist =>
           { restore_state { s with undo_stack := rest } snap with command_history := hist }) := by
      unfold handle_u; rw [hundo]
    have hsc : (restore_state { s with undo_stack := rest } snap).command_history =
        e1 :: e2 :: hrest := by simp [hhist]
    have hu_undo : (handle_u s).undo_stack = rest := by
      rw [e, hsc]; rfl
    have hu_hist : (handle_u s).command_history = e2 :: hrest := by
      rw [e, hsc]
    constructor
    · rw [post_history_undo, clamp_cursor_undo, hu_undo, hundo]
      simp
    · have hp : (post_history (clamp_cursor (handle_u s)) ['u'] none).command_history =
          hrest := by
        simp [post_history, excluded_verbs, hu_hist]
      rw [hp, hhist]
      simp

/-- The state reached by dispatching `i "hi"` from the initial state,
for the C3 witness. -/
def c3w_state : EditorState :=
  { content := [chars "hi"]
    current_line := 0
    current_row := 0
    show_line_cursor := false
    show_row_cursor := false
    clipboard := none
    undo_stack := [snapshot_of initialize_state]
    command_history := [(['i'], some (chars "hi")), (['i'], some (chars "hi"))] }

/-- Witness for the amended C3: (A) at the dispatch of `i "hi"` from
the initial state, (B) at the same dispatch, (C) at a dispatch of `h`,
(D) at an undo from the post-insert state. -/
theorem c3_amended_history_bookkeeping_witness :
    c3w_state.undo_stack.length = initialize_state.undo_stack.length + 1 ∧
    c3w_state.command_history.length = initialize_state.command_history.length + 2 ∧
    (post_history (clamp_cursor (handle_h (save_state initialize_state)))
        ['h'] none).command_history.length =
      initialize_state.command_history.length + 1 ∧
    ((post_history (clamp_cursor (handle_u c3w_state)) ['u'] none).undo_stack.length + 1 =
        c3w_state.undo_stack.length ∧
      (post_history (clamp_cursor (handle_u c3w_state)) ['u'] none).command_history.length + 2 =
        c3w_state.command_history.length) :=
  ⟨c3_amended_history_bookkeeping.1 initialize_state ['i'] (some (chars "hi")) c3w_state
      (by decide) (by decide),
    c3_amended_history_bookkeeping.2.1 initialize_state (chars "hi") c3w_state (by decide),
    c3_amended_history_bookkeeping.2.2.1 initialize_state none _ rfl,
    c3_amended_history_bookkeeping.2.2.2 c3w_state _ (by decide) (by decide) rfl⟩

/-- C6 (amended): paste is a no-op on the document and cursor exactly
when the clipboard is ABSENT (None): for a clamped starting state with
no clipboard, dispatching `p` or `P` changes neither the document nor
the cursor.  (The un-amended claim also asserted this for a clipboard
holding the EMPTY string, which the code pastes as a new empty line —
see the counterexample.) -/
theorem c6_amended_paste_noop_only_when_absent (s : EditorState) (arg : Option (List Char))
    (hclip : s.clipboard = none) (hclamped : clamp_cursor s = s) :
    (∀ s', handle_command s ['p'] arg = some s' →
      s'.content = s.content ∧ s'.current_line = s.current_line ∧
      s'.current_row = s.current_row) ∧
    (∀ s', handle_command s ['P'] arg = some s' →
      s'.content = s.content ∧ s'.current_line = s.current_line ∧
      s'.current_row = s.current_row) := by
  have hp : ∀ b, handle_paste (save_state s) b = save_state s := by
    intro b
    unfold handle_paste
    rw [show (save_state s).clipboard = none from by rw [save_state_clipboard, hclip]]
  have hcl : clamp_cursor (save_state s) = save_state s :=
    clamp_cursor_fixed_of s (save_state s) hclamped rfl rfl rfl
  constructor
  · intro s' h
    rw [show handle_command s ['p'] arg =
        some (post_history (clamp_cursor (handle_paste (save_state s) false)) ['p'] arg)
        from rfl, hp false, hcl] at h
    cases h
    refine ⟨?_, ?_, ?_⟩ <;> simp
  · intro s' h
    rw [show handle_command s ['P'] arg =
        some (post_history (clamp_cursor (handle_paste (save_state s) true)) ['P'] arg)
        from rfl, hp true, hcl] at h
    cases h
    refine ⟨?_, ?_, ?_⟩ <;> simp

/-- A clamped state with document ["a"] and no clipboard, for the C6
witness. -/
def c6w_start : EditorState := { initialize_state with content := [chars "a"] }

/-- Witness for the amended C6 at the concrete state with document
["a"] and absent clipboard. -/
theorem c6_amended_paste_noop_only_when_absent_witness :
    ((post_history (clamp_cursor (save_state c6w_start)) ['p'] none).content =
        c6w_start.content ∧
      (post_history (clamp_cursor (save_state c6w_start)) ['p'] none).current_line =
        c6w_start.current_line ∧
      (post_history (clamp_cursor (save_state c6w_start)) ['p'] none).current_row =
        c6w_start.current_row) ∧
    ((post_history (clamp_cursor (save_state c6w_start)) ['P'] none).content =
        c6w_start.content ∧
      (post_history (clamp_cursor (save_state c6w_start)) ['P'] none).current_line =
        c6w_start.current_line ∧
      (post_history (clamp_cursor (save_state c6w_start)) ['P'] none).current_row =
        c6w_start.current_row) :=
  ⟨(c6_amended_paste_noop_only_when_absent c6w_start none rfl (by decide)).1 _ rfl,
   (c6_amended_paste_noop_only_when_absent c6w_start none rfl (by decide)).2 _ rfl⟩

/-- C8: dispatching `x` when the current line is empty, or when the
cursor column is at or beyond the line length (the cursor line existing,
or the document being empty), succeeds — no error — and leaves the
document, in particular the current line, unchanged. -/
theorem c8_x_boundary_noop (s : EditorState) (arg : Option (List Char))
    (hin : s.content = [] ∨ s.current_line < s.content.length)
    (hcond : (s.content.get? s.current_line).getD [] = [] ∨
      ((s.content.get? s.current_line).getD []).length ≤ s.current_row) :
    handle_command s ['x'] arg =
      some (post_history (clamp_cursor (save_state s)) ['x'] arg) ∧
    (post_history (clamp_cursor (save_state s)) ['x'] arg).content = s.content := by
  have hx : handle_x (save_state s) = some (save_state s) := by
    unfold handle_x
    by_cases hc : (save_state s).content = []
    · rw [if_pos hc]
    · rw [if_neg hc]
      have hlt : s.current_line < s.content.length := by
        rcases hin with h | h
        · exact absurd h hc
        · exact h
      obtain ⟨line, hline⟩ : ∃ line, s.content.get? s.current_line = some line :=
        ⟨_, List.get?_eq_get hlt⟩
      rw [show (save_state s).content.get? (save_state s).current_line =
          s.content.get? s.current_line from rfl, hline]
      have hng : ¬(line ≠ [] ∧ (save_state s).current_row < line.length) := by
        rw [save_state_current_row]
        rintro ⟨hne2, hrow⟩
        rcases hcond with hc2 | hc2
        · rw [hline] at hc2; simp at hc2; exact hne2 hc2
        · rw [hline] at hc2; simp at hc2; omega
      simp only [ne_eq]
      rw [if_neg (by simpa using hng)]
  constructor
  · rw [handle_command_def, if_neg (by decide)]
    rw [show run_handler (handle_command_fuel 1) (save_state s) ['x'] arg =
        handle_x (save_state s) from rfl, hx]
  · simp

/-- A state whose single line is empty, for the C8 witness. -/
def c8w_start : EditorState := { initialize_state with content := [[]] }

/-- Witness for C8 at the state whose only line is empty. -/
theorem c8_x_boundary_noop_witness :
    handle_command c8w_start ['x'] none =
      some (post_history (clamp_cursor (save_state c8w_start)) ['x'] none) ∧
    (post_history (clamp_cursor (save_state c8w_start)) ['x'] none).content =
      c8w_start.content :=
  c8_x_boundary_noop c8w_start none (Or.inr (by decide)) (Or.inl (by decide))

/-- Dispatching `dd` on an empty document succeeds and is a structural
no-op on the document. -/
theorem handle_command_dd_empty (v : EditorState) (hv : v.content = []) :
    handle_command v ['d','d'] none =
      some (post_history (clamp_cursor (save_state v)) ['d','d'] none) := by
  rw [handle_command_def, if_neg (by decide)]
  rw [show run_handler (handle_command_fuel 1) (save_state v) ['d','d'] none =
      handle_dd (save_state v) from rfl]
  have hdd : handle_dd (save_state v) = some (save_state v) := by
    unfold handle_dd
    rw [if_pos (show (save_state v).content = [] from hv)]
  rw [hdd]

/-- C9: `dd` on a single-line document with the cursor on line 0 yields
the empty document with the cursor at (0,0), and a second `dd` succeeds
and leaves the document and cursor unchanged. -/
theorem c9_dd_single_line (s : EditorState) (l : List Char)
    (hc : s.content = [l]) (hl : s.current_line = 0) :
    (handle_command s ['d','d'] none).isSome = true ∧
    ∀ s1, handle_command s ['d','d'] none = some s1 →
      s1.content = [] ∧ s1.current_line = 0 ∧ s1.current_row = 0 ∧
      (handle_command s1 ['d','d'] none).isSome = true ∧
      ∀ s2, handle_command s1 ['d','d'] none = some s2 →
        s2.content = s1.content ∧ s2.current_line = s1.current_line ∧
        s2.current_row = s1.current_row := by
  have hdd : handle_dd (save_state s) = some
      { save_state s with
        content := s.content.eraseIdx s.current_line
        current_line := if s.content.eraseIdx s.current_line = [] then 0
          else max 0 (min s.current_line ((s.content.eraseIdx s.current_line).length - 1))
        command_history := (['d','d'], none) :: s.command_history } := by
    unfold handle_dd
    rw [if_neg (show ¬(save_state s).content = [] from by
        rw [save_state_content, hc]; simp)]
    rw [if_pos (show (save_state s).current_line < (save_state s).content.length from by
        rw [save_state_current_line, save_state_content, hl, hc]; simp)]
    rfl
  have he : s.content.eraseIdx s.current_line = [] := by
    rw [hc, hl]; rfl
  have heq1 : handle_command s ['d','d'] none = some
      (post_history (clamp_cursor
        { save_state s with
          content := s.content.eraseIdx s.current_line
          current_line := if s.content.eraseIdx s.current_line = [] then 0
            else max 0 (min s.current_line ((s.content.eraseIdx s.current_line).length - 1))
          command_history := (['d','d'], none) :: s.command_history }) ['d','d'] none) := by
    rw [handle_command_def, if_neg (by decide)]
    rw [show run_handler (handle_command_fuel 1) (save_state s) ['d','d'] none =
        handle_dd (save_state s) from rfl, hdd]
  constructor
  · rw [heq1]; rfl
  · intro s1 h1
    rw [heq1] at h1
    cases h1
    have f1 : (post_history (clamp_cursor
        { save_state s with
          content := s.content.eraseIdx s.current_line
          current_line := if s.content.eraseIdx s.current_line = [] then 0
            else max 0 (min s.current_line ((s.content.eraseIdx s.current_line).length - 1))
          command_history := (['d','d'], none) :: s.command_history }) ['d','d'] none).content
        = [] := by simp [he]
    refine ⟨f1, ?_, ?_, ?_, ?_⟩
    · simp [he, clamp_line]
    · simp [he, clamp_row, line_length_at]
    · rw [handle_command_dd_empty _ f1]; rfl
    · intro s2 h2
      rw [handle_command_dd_empty _ f1] at h2
      cases h2
      refine ⟨?_, ?_, ?_⟩
      · simp [f1]
      · simp [f1, he, clamp_line]
      · simp [f1, he, clamp_line, clamp_row, line_length_at]

/-- A single-line state for the C9 witness. -/
def c9w_start : EditorState := { initialize_state with content := [chars "ab"] }

/-- Witness for C9 at the document ["ab"]. -/
theorem c9_dd_single_line_witness :
    (handle_command c9w_start ['d','d'] none).isSome = true :=
  (c9_dd_single_line c9w_start (chars "ab") rfl rfl).1

/-- C10: dispatching `o` or `O` on an empty document does not raise:
each inserts exactly one empty line, the document becomes [""], and
after the unconditional clamp the cursor rests at line 0, column 0. -/
theorem c10_open_line_on_empty (s : EditorState) (arg : Option (List Char))
    (hc : s.content = []) :
    (handle_command s ['o'] arg =
        some (post_history (clamp_cursor (handle_insert_line (save_state s) false))
          ['o'] arg) ∧
      (post_history (clamp_cursor (handle_insert_line (save_state s) false))
        ['o'] arg).content = [[]] ∧
      (post_history (clamp_cursor (handle_insert_line (save_state s) false))
        ['o'] arg).current_line = 0 ∧
      (post_history (clamp_cursor (handle_insert_line (save_state s) false))
        ['o'] arg).current_row = 0) ∧
    (handle_command s ['O'] arg =
        some (post_history (clamp_cursor (handle_insert_line (save_state s) true))
          ['O'] arg) ∧
      (post_history (clamp_cursor (handle_insert_line (save_state s) true))
        ['O'] arg).content = [[]] ∧
      (post_history (clamp_cursor (handle_insert_line (save_state s) true))
        ['O'] arg).current_line = 0 ∧
      (post_history (clamp_cursor (handle_insert_line (save_state s) true))
        ['O'] arg).current_row = 0) := by
  refine ⟨⟨rfl, ?_, ?_, ?_⟩, ⟨rfl, ?_, ?_, ?_⟩⟩ <;>
    simp [handle_insert_line, list_insert, hc, clamp_line, clamp_row, line_length_at]

/-- Witness for C10 at the initial (empty-document) state. -/
theorem c10_open_line_on_empty_witness :
    handle_command initialize_state ['o'] none =
      some (post_history (clamp_cursor (handle_insert_line (save_state initialize_state)
        false)) ['o'] none) ∧
    (post_history (clamp_cursor (handle_insert_line (save_state initialize_state) false))
      ['o'] none).content = [[]] :=
  ⟨(c10_open_line_on_empty initialize_state none rfl).1.1,
   (c10_open_line_on_empty initialize_state none rfl).1.2.1⟩

end ConsoleEditor
